import Mathlib

/-!
Verification of the openEHR MCP server's EHRbase client layer.

This file gives a shallow embedding, in Lean, of the pure decision logic of
the repository's Python modules:

  * `src/ehrbase/format_config.py`   (`FormatConfig`)
  * `src/ehrbase/http_client.py`     (`EHRbaseHttpClient.request`)
  * `src/ehrbase/composition_client.py` (`CompositionClient`)
  * `src/ehrbase/ehr_client.py`      (`EHRClient`)

Python strings are modelled by `String`, Python `None`/absence by `Option`,
and Python truthiness (`if x:`) is made explicit (`None` and `""` are falsy,
an empty dict/list is falsy).  JSON-like Python values are modelled by the
inductive type `PyVal`.  HTTP traffic is modelled by building explicit
request descriptions and by a pure handler over an explicit response record;
exceptions become `Except`.
-/

namespace OpenEHR

/-! ### Python string primitives

`pySplit sep s` models Python `s.split(sep)` for a non-empty separator
`sep`: the string is scanned left to right, each occurrence of `sep`
terminates a field.  The recursion is fuelled by the length of the string,
which always suffices since every step consumes at least one character. -/

/-- Strip `sep` from the front of `s`, returning the remainder if `sep`
is a prefix of `s`. -/
def chopSep : List Char → List Char → Option (List Char)
  | [], s => some s
  | _ :: _, [] => none
  | a :: as, b :: bs => if a = b then chopSep as bs else none

/-- Fuelled worker for `pySplit`; `acc` holds the current field reversed. -/
def pySplitGo (sep : List Char) : Nat → List Char → List Char → List (List Char)
  | 0, acc, rest => [acc.reverse ++ rest]
  | n + 1, acc, s =>
    match chopSep sep s with
    | some rest => acc.reverse :: pySplitGo sep n [] rest
    | none =>
      match s with
      | [] => [acc.reverse]
      | c :: cs => pySplitGo sep n (c :: acc) cs

/-- Python `s.split(sep)` for a non-empty separator `sep`. -/
def pySplit (sep s : String) : List String :=
  (pySplitGo sep.toList (s.toList.length + 1) [] s.toList).map (fun l => String.mk l)

/-- Python `sep in s` for a non-empty separator: true iff splitting on
`sep` yields more than one field. -/
def pyContains (sep s : String) : Bool :=
  (pySplit sep s).length != 1

/-- Whitespace characters removed by Python `bytes.strip()` with no
argument: space, tab, newline, carriage return, vertical tab, form feed. -/
def isPyWs (c : Char) : Bool :=
  c == ' ' || c == '\t' || c == '\n' || c == '\r' || c == '\x0b' || c == '\x0c'

/-- Python `s.strip()`: drop leading and trailing whitespace. -/
def pyStrip (s : String) : String :=
  String.mk (((s.toList.dropWhile isPyWs).reverse.dropWhile isPyWs).reverse)

/-- Python truthiness of an optional string: `None` and `""` are falsy. -/
def optStrTruthy : Option String → Bool
  | none => false
  | some s => s != ""

/-! ### `FormatConfig` (src/ehrbase/format_config.py)

The class keeps one piece of state, `self.json_format`, fixed in
`__init__`; each accessor is a pure function of that string and of an
optional override argument.  We embed the state as an explicit first
argument. -/

namespace FormatConfig

/-- Constant `FormatConfig.CANONICAL`. -/
def CANONICAL : String := "canonical"

/-- Constant `FormatConfig.WT_FLAT`. -/
def WT_FLAT : String := "wt_flat"

/-- Constant `FormatConfig.WT_STRUCTURED`. -/
def WT_STRUCTURED : String := "wt_structured"

/-- Constant `FormatConfig.DEFAULT_FORMAT`. -/
def DEFAULT_FORMAT : String := WT_FLAT

/-- Model of `FormatConfig.__init__`: the stored `self.json_format`, as a function
of the explicit `json_format` argument (`none` for Python `None`) and of
the `EHRBASE_JSON_FORMAT` environment variable (`none` when unset).
A truthy explicit argument is stored verbatim; otherwise the environment
value is used only if it is one of the three known modes, else the
default. -/
def init_json_format (json_format : Option String) (env_format : Option String) : String :=
  if optStrTruthy json_format then json_format.getD ""
  else
    match env_format with
    | some e =>
      if e = CANONICAL ∨ e = WT_FLAT ∨ e = WT_STRUCTURED then e else DEFAULT_FORMAT
    | none => DEFAULT_FORMAT

/-- Model of `FormatConfig.get_template_list_format`. -/
def get_template_list_format (_json_format : String) (override_format : Option String) : String :=
  if optStrTruthy override_format then override_format.getD ""
  else "json"

/-- Model of `FormatConfig.get_template_format`. -/
def get_template_format (json_format : String) (override_format : Option String) : String :=
  if optStrTruthy override_format then override_format.getD ""
  else if json_format = CANONICAL then "json"
  else "web_template"

/-- Model of `FormatConfig.get_composition_format`. -/
def get_composition_format (json_format : String) (override_format : Option String) : String :=
  if optStrTruthy override_format then override_format.getD ""
  else if json_format = CANONICAL then "json"
  else if json_format = WT_FLAT then "flat_json"
  else if json_format = WT_STRUCTURED then "structured_json"
  else "flat_json"

/-- Model of `FormatConfig.get_ehr_format`. -/
def get_ehr_format (_json_format : String) (override_format : Option String) : String :=
  if optStrTruthy override_format then override_format.getD ""
  else "json"

/-- Model of `FormatConfig.get_query_format`. -/
def get_query_format (_json_format : String) (override_format : Option String) : String :=
  if optStrTruthy override_format then override_format.getD ""
  else "json"

end FormatConfig

/-! ### JSON-like Python values -/

/-- A JSON-like Python value: `None`, a string, a natural number, an
ordered dict, or a list.  (The repository's decision logic never branches
on floats or booleans, so these suffice.) -/
inductive PyVal where
  | vNone : PyVal
  | vStr : String → PyVal
  | vNum : Nat → PyVal
  | vDict : List (String × PyVal) → PyVal
  | vList : List PyVal → PyVal

/-- Python truthiness of a `PyVal`: `None`, `""`, `0`, `{}` and `[]`
are falsy. -/
def pyTruthy : PyVal → Bool
  | .vNone => false
  | .vStr s => s != ""
  | .vNum n => n != 0
  | .vDict es => !es.isEmpty
  | .vList xs => !xs.isEmpty

/-- Lookup of a key in an ordered dict's entry list. -/
def entriesLookup (k : String) : List (String × PyVal) → Option PyVal
  | [] => none
  | (k0, v) :: rest => if k0 = k then some v else entriesLookup k rest

/-- Python `k in d` for a dict `d`. -/
def dictHasKey (k : String) (d : PyVal) : Bool :=
  match d with
  | .vDict es => (entriesLookup k es).isSome
  | _ => false

/-- Errors that the embedded client operations can raise. -/
inductive PyErr where
  /-- Python `KeyError` from a failed `d[k]` subscript. -/
  | keyError : String → PyErr
  /-- Python `TypeError` (subscripting a non-dict). -/
  | typeError : PyErr
  /-- The explicit `ValueError("Version UID is required for updating EHR
  status")` raised by `EHRClient.update_ehr_status`. -/
  | missingVersion : PyErr
  /-- The `httpx` error `HTTPStatusError` raised by `response.raise_for_status()`,
  carrying the HTTP status code. -/
  | httpStatus : Nat → PyErr
  /-- A network-level error raised by `httpx` while sending. -/
  | network : PyErr
  /-- Python `UnboundLocalError`: `response` was never assigned because
  `method` matched no dispatch branch. -/
  | unboundLocal : PyErr
deriving DecidableEq

/-- Python string equality against an arbitrary value, as used by list
membership: a string compares equal only to an equal string. -/
def listHasStr (k : String) : List PyVal → Bool
  | [] => false
  | .vStr s :: rest => if s = k then true else listHasStr k rest
  | _ :: rest => listHasStr k rest

/-- Python `k in d` as an expression that can itself raise: key
membership on a dict, substring test on a string, element membership on
a list, and `TypeError` on a non-iterable (`None` or a number). -/
def pyInOp (k : String) (d : PyVal) : Except PyErr Bool :=
  match d with
  | .vDict es => .ok (entriesLookup k es).isSome
  | .vStr s => .ok (pyContains k s)
  | .vList xs => .ok (listHasStr k xs)
  | .vNone => .error .typeError
  | .vNum _ => .error .typeError

/-- Python `d[k]`: `KeyError` on a missing key, `TypeError` when `d` is
not a dict. -/
def pyGetItem (d : PyVal) (k : String) : Except PyErr PyVal :=
  match d with
  | .vDict es =>
    match entriesLookup k es with
    | some v => .ok v
    | none => .error (.keyError k)
  | _ => .error .typeError

/-! ### `EHRbaseHttpClient.request` (src/ehrbase/http_client.py)

The outbound side is modelled as a description of the single HTTP request
the method would send (`RequestSpec`); the inbound side as a pure handler
over an explicit `HttpResponse` record.  `jsonBody` is the outcome of the
library call `response.json()`: `some v` when the body parses as JSON,
`none` when parsing raises. -/

/-- The HTTP methods `request` dispatches on. -/
inductive HttpMethod where
  | get | post | put | delete
deriving DecidableEq

/-- The `if method == "GET" ... elif method == "DELETE"` dispatch chain:
the branch taken, or `none` when no branch assigns `response`. -/
def dispatchMethod (method : String) : Option HttpMethod :=
  if method = "GET" then some .get
  else if method = "POST" then some .post
  else if method = "PUT" then some .put
  else if method = "DELETE" then some .delete
  else none

/-- An HTTP response as seen by the handler half of `request`. -/
structure HttpResponse where
  status : Nat
  /-- the raw body bytes, as a string -/
  content : String
  /-- the response headers (lookup is case-insensitive, as in `httpx`) -/
  headers : List (String × String)
  /-- outcome of `response.json()`: `none` when parsing raises -/
  jsonBody : Option PyVal

/-- ASCII lowercasing of a string, character by character. -/
def strToLower (s : String) : String :=
  String.mk (s.toList.map Char.toLower)

/-- Case-insensitive header lookup, as `httpx` `Headers` performs. -/
def headerLookup (k : String) : List (String × String) → Option String
  | [] => none
  | (k0, v) :: rest =>
    if strToLower k0 = strToLower k then some v else headerLookup k rest

/-- Python `response.headers.get(k, default)`. -/
def headersGetD (hs : List (String × String)) (k d : String) : String :=
  (headerLookup k hs).getD d

/-- The success-marker dict returned for a 204 response. -/
def noContentMarker : PyVal :=
  .vDict [("status", .vStr "success"),
          ("message", .vStr "Operation completed successfully")]

/-- The success-marker dict returned for a 201 response with empty body;
`ehr_id` is the last `/`-separated segment of the `Location` header when
that header is present and non-empty, and `None` otherwise. -/
def createdMarker (headers : List (String × String)) : PyVal :=
  let location := headersGetD headers "Location" ""
  let ehr_id : PyVal :=
    if location != "" then .vStr ((pySplit "/" location).getLastD "")
    else .vNone
  .vDict [("status", .vStr "success"),
          ("message", .vStr "Resource created successfully"),
          ("ehr_id", ehr_id)]

/-- The entries of the degraded success marker returned when
`response.json()` raises. -/
def degradedEntries (r : HttpResponse) : List (String × PyVal) :=
  [("status", .vStr "success"),
   ("status_code", .vNum r.status),
   ("headers", .vDict (r.headers.map (fun p => (p.1, .vStr p.2)))),
   ("content_type", .vStr (headersGetD r.headers "Content-Type" "unknown")),
   ("content_length", .vNum r.content.length)]

/-- The degraded success marker returned when `response.json()` raises. -/
def degradedMarker (r : HttpResponse) : PyVal :=
  .vDict (degradedEntries r)

/-- The response-handling half of `request`, after the send:
`raise_for_status` (4xx/5xx raise), then the 204 special case, then the
201-with-empty-body special case, then JSON parsing with the degraded
fallback. -/
def handleResponse (r : HttpResponse) : Except PyErr PyVal :=
  if 400 ≤ r.status then .error (.httpStatus r.status)
  else if r.status = 204 then .ok noContentMarker
  else if r.status = 201 ∧ pyStrip r.content = "" then .ok (createdMarker r.headers)
  else
    match r.jsonBody with
    | some v => .ok v
    | none => .ok (degradedMarker r)

/-- The whole of `request` as a function of the method string and of the
network outcome (`.error` for an `httpx` send failure): an unknown method
leaves `response` unassigned, so `response.raise_for_status()` raises
`UnboundLocalError` without any request having been sent. -/
def request (method : String) (outcome : Except PyErr HttpResponse) :
    Except PyErr PyVal :=
  match dispatchMethod method with
  | none => .error .unboundLocal
  | some _ =>
    match outcome with
    | .error e => .error e
    | .ok r => handleResponse r

/-- The HTTP status code carried by an error, when any: only
`raise_for_status` failures carry one. -/
def errStatusCode : PyErr → Option Nat
  | .httpStatus n => some n
  | _ => none

/-- The outbound request a client operation builds: path relative to the
base URL, method string, and the `If-Match` header, which `request` adds
exactly when the method is `"PUT"` and the supplied `version_uid` is
truthy. -/
structure RequestSpec where
  path : String
  method : String
  ifMatch : Option String
deriving DecidableEq

/-! ### `CompositionClient` (src/ehrbase/composition_client.py) -/

namespace CompositionClient

/-- Model of `CompositionClient._extract_template_id`: on a non-empty dict whose
first key contains `/`, the part of that key before the first `/`;
otherwise `None`. -/
def extract_template_id (composition_data : PyVal) : Option String :=
  match composition_data with
  | .vDict ((first_key, _) :: _) =>
    if pyContains "/" first_key then some ((pySplit "/" first_key).headD "")
    else none
  | _ => none

/-- Python `template_id or self._extract_template_id(composition_data)` as
evaluated in `create_composition` / `update_composition`: a truthy
explicit argument wins, otherwise extraction from the body. -/
def effective_template_id (template_id : Option String) (composition_data : PyVal) :
    Option String :=
  if optStrTruthy template_id then template_id
  else extract_template_id composition_data

/-- Model of `CompositionClient.update_composition`, outbound side: the path uses
the part of the UID before the first `::` (the UID itself when it has
none), the method is PUT, and the full UID is passed as `version_uid`,
which `request` turns into an `If-Match` header when truthy. -/
def update_composition (ehr_id composition_uid : String) : RequestSpec :=
  let versioned_object_uid :=
    if pyContains "::" composition_uid then (pySplit "::" composition_uid).headD ""
    else composition_uid
  { path := "openehr/v1/ehr/" ++ ehr_id ++ "/composition/" ++ versioned_object_uid,
    method := "PUT",
    ifMatch := if composition_uid != "" then some composition_uid else none }

end CompositionClient

/-! ### `EHRClient` (src/ehrbase/ehr_client.py) -/

namespace EHRClient

/-- The PUT request built by `update_ehr_status`: by the time it is
issued the version value is truthy, so `request` always adds the
`If-Match` header, whose value is the (arbitrary Python) version. -/
structure StatusPut where
  path : String
  method : String
  ifMatch : PyVal

/-- Model of `EHRClient.update_ehr_status`, up to the outbound request:
the guard `not version_uid and status_data and "uid" in status_data`
short-circuits, so the membership test — which itself raises `TypeError`
on a truthy non-iterable — runs only on a truthy document.  When the
guard holds, the version is read from `status_data["uid"]["value"]`
(each subscript can raise `KeyError` / `TypeError`); a still-falsy
version raises the explicit missing-version `ValueError`; otherwise the
PUT request is described, its `If-Match` carrying the version value. -/
def update_ehr_status (ehr_id : String) (status_data : PyVal)
    (version_uid : Option String) : Except PyErr StatusPut :=
  let guard : Except PyErr Bool :=
    if ¬ optStrTruthy version_uid ∧ pyTruthy status_data then
      pyInOp "uid" status_data
    else .ok false
  match guard with
  | .error e => .error e
  | .ok g =>
    let step : Except PyErr PyVal :=
      if g then
        match pyGetItem status_data "uid" with
        | .error e => .error e
        | .ok uid => pyGetItem uid "value"
      else
        .ok (match version_uid with | some s => .vStr s | none => .vNone)
    match step with
    | .error e => .error e
    | .ok v =>
      if ¬ pyTruthy v then .error .missingVersion
      else
        .ok { path := "openehr/v1/ehr/" ++ ehr_id ++ "/ehr_status",
              method := "PUT",
              ifMatch := v }

/-- Model of `EHRClient.delete_ehr`, outbound side: a DELETE on the admin
endpoint. -/
def delete_ehr_request (ehr_id : String) : RequestSpec :=
  { path := "admin/ehr/" ++ ehr_id, method := "DELETE", ifMatch := none }

/-- Model of `EHRClient.delete_ehr`, result side: the `try/except` around the
request maps any raised error to `False` and any successful response to
`True`. -/
def delete_ehr_result (outcome : Except PyErr PyVal) : Bool :=
  match outcome with
  | .ok _ => true
  | .error _ => false

end EHRClient

/-! ## Theorems -/

/-- C1: with no explicit override, the format accessors follow the mode
table: `canonical` gives `json` everywhere; `wt_flat` gives `json`,
`web_template`, `flat_json`, `json`, `json`; `wt_structured` gives
`json`, `web_template`, `structured_json`, `json`, `json` (in the order
template-list, template-detail, composition, EHR, query). -/
theorem format_mode_table :
    (FormatConfig.get_template_list_format "canonical" none = "json" ∧
     FormatConfig.get_template_format "canonical" none = "json" ∧
     FormatConfig.get_composition_format "canonical" none = "json" ∧
     FormatConfig.get_ehr_format "canonical" none = "json" ∧
     FormatConfig.get_query_format "canonical" none = "json") ∧
    (FormatConfig.get_template_list_format "wt_flat" none = "json" ∧
     FormatConfig.get_template_format "wt_flat" none = "web_template" ∧
     FormatConfig.get_composition_format "wt_flat" none = "flat_json" ∧
     FormatConfig.get_ehr_format "wt_flat" none = "json" ∧
     FormatConfig.get_query_format "wt_flat" none = "json") ∧
    (FormatConfig.get_template_list_format "wt_structured" none = "json" ∧
     FormatConfig.get_template_format "wt_structured" none = "web_template" ∧
     FormatConfig.get_composition_format "wt_structured" none = "structured_json" ∧
     FormatConfig.get_ehr_format "wt_structured" none = "json" ∧
     FormatConfig.get_query_format "wt_structured" none = "json") := by
  decide

/-- C2, counterexample: the empty string is a supplied override value
that does not win — Python truthiness treats `""` like `None`, so the
composition accessor in `canonical` mode returns `"json"`, not the
override. -/
theorem override_empty_string_loses :
    FormatConfig.get_composition_format "canonical" (some "") = "json" ∧
    FormatConfig.get_composition_format "canonical" (some "") ≠ "" := by
  decide

/-- C2, amended: every *non-empty* supplied override value is returned
verbatim by all five accessors, whatever the configured mode. -/
theorem override_wins_when_nonempty (mode s : String) (h : s ≠ "") :
    FormatConfig.get_template_list_format mode (some s) = s ∧
    FormatConfig.get_template_format mode (some s) = s ∧
    FormatConfig.get_composition_format mode (some s) = s ∧
    FormatConfig.get_ehr_format mode (some s) = s ∧
    FormatConfig.get_query_format mode (some s) = s := by
  simp [FormatConfig.get_template_list_format, FormatConfig.get_template_format,
    FormatConfig.get_composition_format, FormatConfig.get_ehr_format,
    FormatConfig.get_query_format, optStrTruthy, h]

/-- C2, witness for `override_wins_when_nonempty` at mode `"wt_flat"`,
override `"xml"`. -/
theorem override_wins_when_nonempty_witness :
    ("xml" : String) ≠ "" ∧
    FormatConfig.get_composition_format "wt_flat" (some "xml") = "xml" :=
  ⟨by decide, (override_wins_when_nonempty "wt_flat" "xml" (by decide)).2.2.1⟩

/-- C10: a non-empty explicit `json_format` argument is stored verbatim
as the active mode, whatever the environment says and even when it is
not one of the three modes (the composition accessor then falls through
to `"flat_json"`); an environment value that is none of the three modes
is replaced by the default `"wt_flat"`. -/
theorem init_json_format_spec (s : String) (env : Option String) :
    (s ≠ "" → FormatConfig.init_json_format (some s) env = s) ∧
    (s ≠ "canonical" → s ≠ "wt_flat" → s ≠ "wt_structured" →
      FormatConfig.get_composition_format s none = "flat_json") ∧
    (∀ e : String, e ≠ "canonical" → e ≠ "wt_flat" → e ≠ "wt_structured" →
      FormatConfig.init_json_format none (some e) = "wt_flat") := by
  refine ⟨fun h => ?_, fun h1 h2 h3 => ?_, fun e h1 h2 h3 => ?_⟩
  · simp [FormatConfig.init_json_format, optStrTruthy, h]
  · simp [FormatConfig.get_composition_format, FormatConfig.CANONICAL,
      FormatConfig.WT_FLAT, FormatConfig.WT_STRUCTURED, optStrTruthy, h1, h2, h3]
  · simp [FormatConfig.init_json_format, FormatConfig.CANONICAL,
      FormatConfig.WT_FLAT, FormatConfig.WT_STRUCTURED, FormatConfig.DEFAULT_FORMAT,
      optStrTruthy, h1, h2, h3]

/-- C10, witness for `init_json_format_spec` at the unknown mode string
`"bogus"`. -/
theorem init_json_format_spec_witness :
    ("bogus" : String) ≠ "" ∧
    FormatConfig.init_json_format (some "bogus") (some "canonical") = "bogus" ∧
    FormatConfig.get_composition_format "bogus" none = "flat_json" ∧
    FormatConfig.init_json_format none (some "bogus") = "wt_flat" :=
  ⟨by decide,
   (init_json_format_spec "bogus" (some "canonical")).1 (by decide),
   (init_json_format_spec "bogus" none).2.1 (by decide) (by decide) (by decide),
   (init_json_format_spec "bogus" none).2.2 "bogus" (by decide) (by decide) (by decide)⟩

/-- C3, counterexample: for the empty composition UID the PUT carries no
`If-Match` header at all — `request` only adds the header when the
supplied version string is truthy — so the header does not equal the
full UID. -/
theorem update_composition_empty_uid_no_ifmatch :
    (CompositionClient.update_composition "e1" "").ifMatch = none ∧
    (CompositionClient.update_composition "e1" "").ifMatch ≠ some "" := by
  decide

/-- C3, amended: for every EHR id and every *non-empty* composition UID
`u`, `update_composition` describes a single PUT whose path appends the
part of `u` before the first `::` (all of `u` when it contains none) and
whose `If-Match` header is the full `u`. -/
theorem update_composition_put_spec (e u : String) (h : u ≠ "") :
    (CompositionClient.update_composition e u).method = "PUT" ∧
    (CompositionClient.update_composition e u).path =
      "openehr/v1/ehr/" ++ e ++ "/composition/" ++
        (if pyContains "::" u then (pySplit "::" u).headD "" else u) ∧
    (CompositionClient.update_composition e u).ifMatch = some u := by
  simp [CompositionClient.update_composition, h]

/-- C3, witness for `update_composition_put_spec` at the spec's two
examples, `"obj::1"` and `"obj"`. -/
theorem update_composition_put_spec_witness :
    ("obj::1" : String) ≠ "" ∧
    (CompositionClient.update_composition "e1" "obj::1").path =
      "openehr/v1/ehr/e1/composition/obj" ∧
    (CompositionClient.update_composition "e1" "obj::1").ifMatch = some "obj::1" ∧
    (CompositionClient.update_composition "e1" "obj").path =
      "openehr/v1/ehr/e1/composition/obj" ∧
    (CompositionClient.update_composition "e1" "obj").ifMatch = some "obj" :=
  ⟨by decide,
   by rw [(update_composition_put_spec "e1" "obj::1" (by decide)).2.1]; decide,
   (update_composition_put_spec "e1" "obj::1" (by decide)).2.2,
   by rw [(update_composition_put_spec "e1" "obj" (by decide)).2.1]; decide,
   (update_composition_put_spec "e1" "obj" (by decide)).2.2⟩

/-- C4: with no explicit template ID, composition create/update derive
the template ID from the body's first key: if that first key contains
`/` the ID is the part before the first `/`; and whenever no key of the
body contains `/`, no ID is derived. -/
theorem extract_template_id_spec (k : String) (v : PyVal)
    (rest es : List (String × PyVal)) :
    (pyContains "/" k = true →
      CompositionClient.effective_template_id none (.vDict ((k, v) :: rest)) =
        some ((pySplit "/" k).headD "")) ∧
    ((∀ p ∈ es, pyContains "/" p.1 = false) →
      CompositionClient.effective_template_id none (.vDict es) = none) := by
  constructor
  · intro h
    simp [CompositionClient.effective_template_id,
      CompositionClient.extract_template_id, optStrTruthy, h]
  · intro h
    cases es with
    | nil =>
      simp [CompositionClient.effective_template_id,
        CompositionClient.extract_template_id, optStrTruthy]
    | cons p rest2 =>
      have hp : pyContains "/" p.1 = false := h p (List.mem_cons_self p rest2)
      simp [CompositionClient.effective_template_id,
        CompositionClient.extract_template_id, optStrTruthy, hp]

/-- C4, witness for `extract_template_id_spec`: first key `"tid/x"`
yields `"tid"`; a body whose keys contain no `/` yields no ID. -/
theorem extract_template_id_spec_witness :
    pyContains "/" "tid/x" = true ∧
    CompositionClient.effective_template_id none (.vDict [("tid/x", .vNone)]) =
      some "tid" ∧
    CompositionClient.effective_template_id none (.vDict [("a", .vNone)]) = none :=
  ⟨by decide,
   by rw [(extract_template_id_spec "tid/x" .vNone [] []).1 (by decide)]; decide,
   (extract_template_id_spec "" .vNone [] [("a", .vNone)]).2
     (by intro p hp; simp at hp; rw [hp]; decide)⟩

/-- C5, counterexample: a `Location` header that is present but empty
yields `ehr_id = None`, not the last `/`-separated segment of the header
value (which would be the empty string) — the code tests the header
value for truthiness, not for presence. -/
theorem created_marker_empty_location :
    (pySplit "/" "").getLastD "" = "" ∧
    handleResponse ⟨201, "", [("Location", "")], none⟩ =
      .ok (.vDict [("status", .vStr "success"),
                   ("message", .vStr "Resource created successfully"),
                   ("ehr_id", .vNone)]) ∧
    PyVal.vNone ≠ PyVal.vStr "" := by
  refine ⟨by decide, by rfl, fun h => ?_⟩
  cases h

/-- C5, amended: a 201 response whose body is empty after stripping
whitespace is turned into the created-resource success marker without
the JSON body being consulted; the marker's `ehr_id` is `None` when no
`Location` header is present, and is the last `/`-separated segment of
the header value whenever a `Location` header is present with a
non-empty value. -/
theorem created_marker_spec (r : HttpResponse) (h201 : r.status = 201)
    (hempty : pyStrip r.content = "") :
    handleResponse r = .ok (createdMarker r.headers) ∧
    (headerLookup "Location" r.headers = none →
      createdMarker r.headers =
        .vDict [("status", .vStr "success"),
                ("message", .vStr "Resource created successfully"),
                ("ehr_id", .vNone)]) ∧
    (∀ l, headerLookup "Location" r.headers = some l → l ≠ "" →
      createdMarker r.headers =
        .vDict [("status", .vStr "success"),
                ("message", .vStr "Resource created successfully"),
                ("ehr_id", .vStr ((pySplit "/" l).getLastD ""))]) := by
  refine ⟨?_, fun hl => ?_, fun l hl hne => ?_⟩
  · simp [handleResponse, h201, hempty]
  · simp [createdMarker, headersGetD, hl]
  · simp [createdMarker, headersGetD, hl, hne]

/-- C5, witness for `created_marker_spec`: a 201 with whitespace body
and `Location: http://x/ehr/abc123` (and a JSON body that is ignored)
yields the marker with `ehr_id = "abc123"`. -/
theorem created_marker_spec_witness :
    pyStrip " " = "" ∧
    handleResponse ⟨201, " ", [("Location", "http://x/ehr/abc123")], some (.vStr "ignored")⟩ =
      .ok (createdMarker [("Location", "http://x/ehr/abc123")]) ∧
    createdMarker [("Location", "http://x/ehr/abc123")] =
      .vDict [("status", .vStr "success"),
              ("message", .vStr "Resource created successfully"),
              ("ehr_id", .vStr "abc123")] :=
  ⟨by decide,
   (created_marker_spec ⟨201, " ", [("Location", "http://x/ehr/abc123")],
      some (.vStr "ignored")⟩ rfl (by decide)).1,
   by
    rw [(created_marker_spec ⟨201, " ", [("Location", "http://x/ehr/abc123")],
      some (.vStr "ignored")⟩ rfl (by decide)).2.2 "http://x/ehr/abc123" (by rfl) (by decide)]
    rfl⟩

/-- C6: a successful response that is neither a 204 nor a 201 with
empty body, and whose body fails to parse as JSON, does not raise: the
result is a degraded success marker containing the numeric status code,
the response headers, the content type and the body's byte length. -/
theorem json_parse_fallback (r : HttpResponse) (hs : r.status < 400)
    (h204 : r.status ≠ 204) (h201 : ¬(r.status = 201 ∧ pyStrip r.content = ""))
    (hj : r.jsonBody = none) :
    handleResponse r = .ok (.vDict (degradedEntries r)) ∧
    entriesLookup "status_code" (degradedEntries r) = some (.vNum r.status) ∧
    entriesLookup "headers" (degradedEntries r) =
      some (.vDict (r.headers.map (fun p => (p.1, .vStr p.2)))) ∧
    entriesLookup "content_type" (degradedEntries r) =
      some (.vStr (headersGetD r.headers "Content-Type" "unknown")) ∧
    entriesLookup "content_length" (degradedEntries r) = some (.vNum r.content.length) := by
  refine ⟨?_, ?_, ?_, ?_, ?_⟩
  · unfold handleResponse
    rw [if_neg (by omega), if_neg h204, if_neg h201, hj]
    rfl
  · simp [entriesLookup, degradedEntries]
  · simp [entriesLookup, degradedEntries]
  · simp [entriesLookup, degradedEntries]
  · simp [entriesLookup, degradedEntries]

/-- C6, witness for `json_parse_fallback`: a 200 response whose body
`"not json"` fails to parse. -/
theorem json_parse_fallback_witness :
    (200 : Nat) < 400 ∧
    handleResponse ⟨200, "not json", [("Content-Type", "text/plain")], none⟩ =
      .ok (.vDict (degradedEntries ⟨200, "not json", [("Content-Type", "text/plain")], none⟩)) ∧
    degradedEntries ⟨200, "not json", [("Content-Type", "text/plain")], none⟩ =
      [("status", .vStr "success"),
       ("status_code", .vNum 200),
       ("headers", .vDict [("Content-Type", .vStr "text/plain")]),
       ("content_type", .vStr "text/plain"),
       ("content_length", .vNum 8)] :=
  ⟨by decide,
   (json_parse_fallback ⟨200, "not json", [("Content-Type", "text/plain")], none⟩
     (by decide) (by decide) (by decide) rfl).1,
   by rfl⟩

/-- A successful subscript implies the value is a non-empty dict holding
the key, and that the membership test succeeds. -/
theorem pyGetItem_ok_facts (d : PyVal) (k : String) (v : PyVal)
    (h : pyGetItem d k = .ok v) :
    pyTruthy d = true ∧ pyInOp k d = .ok true := by
  cases d with
  | vDict es =>
    cases hl : entriesLookup k es with
    | none => rw [pyGetItem, hl] at h; cases h
    | some w =>
      refine ⟨?_, by simp [pyInOp, hl]⟩
      cases es with
      | nil => cases hl
      | cons p rest => simp [pyTruthy]
  | vNone => cases h
  | vStr s => cases h
  | vNum n => cases h
  | vList xs => cases h

/-- C7, counterexample: a status document whose `uid` entry has no
`value` subfield supplies no embedded UID value, yet the operation fails
with a `KeyError` from the unconditional `status_data["uid"]["value"]`
subscript, not with the explicit missing-version `ValueError`. -/
theorem update_ehr_status_uid_without_value :
    EHRClient.update_ehr_status "e1" (.vDict [("uid", .vDict [])]) none =
      .error (.keyError "value") ∧
    PyErr.keyError "value" ≠ PyErr.missingVersion := by
  exact ⟨by rfl, by decide⟩

/-- C7, amended: with the version argument omitted, a falsy status
document, or a dict status document without a `"uid"` key, fails with
the explicit missing-version error before any request is built; a
status document whose `uid.value` is a non-empty string has that string
used as the PUT's `If-Match` version.  (A truthy non-iterable document
such as a number instead raises `TypeError` from the membership test,
a `uid` entry lacking a `value` subfield raises `KeyError`, and an
empty extracted value falls back to the missing-version error.) -/
theorem update_ehr_status_spec (e : String) (d : PyVal) :
    (pyTruthy d = false →
      EHRClient.update_ehr_status e d none = .error .missingVersion) ∧
    (∀ es, d = .vDict es → entriesLookup "uid" es = none →
      EHRClient.update_ehr_status e d none = .error .missingVersion) ∧
    (∀ uid s, pyGetItem d "uid" = .ok uid →
      pyGetItem uid "value" = .ok (.vStr s) → s ≠ "" →
      EHRClient.update_ehr_status e d none =
        .ok { path := "openehr/v1/ehr/" ++ e ++ "/ehr_status",
              method := "PUT", ifMatch := .vStr s }) ∧
    (∀ n : Nat, d = .vNum n → n ≠ 0 →
      EHRClient.update_ehr_status e d none = .error .typeError) := by
  refine ⟨fun ht => ?_, fun es hd hl => ?_, fun uid s h1 h2 hs => ?_,
    fun n hd hn => ?_⟩
  · rw [EHRClient.update_ehr_status, if_neg (by simp [optStrTruthy, ht])]
    simp [pyTruthy]
  · subst hd
    cases es with
    | nil => simp [EHRClient.update_ehr_status, optStrTruthy, pyTruthy]
    | cons p rest =>
      simp [EHRClient.update_ehr_status, optStrTruthy, pyTruthy, pyInOp, hl]
  · obtain ⟨ht, hin⟩ := pyGetItem_ok_facts d "uid" uid h1
    rw [EHRClient.update_ehr_status, if_pos ⟨by simp [optStrTruthy], ht⟩, hin]
    simp [h1, h2, pyTruthy, hs]
  · subst hd
    simp [EHRClient.update_ehr_status, optStrTruthy, pyTruthy, pyInOp, hn]

/-- C7, witness for `update_ehr_status_spec`: a dict document without a
`uid` key fails with the missing-version error; one carrying
`uid.value = "s1::2"` has `"s1::2"` as `If-Match`; the truthy
non-iterable document `1` raises `TypeError`. -/
theorem update_ehr_status_spec_witness :
    entriesLookup "uid" [("x", PyVal.vNone)] = none ∧
    EHRClient.update_ehr_status "e1" (.vDict [("x", .vNone)]) none =
      .error .missingVersion ∧
    EHRClient.update_ehr_status "e1"
        (.vDict [("uid", .vDict [("value", .vStr "s1::2")])]) none =
      .ok { path := "openehr/v1/ehr/e1/ehr_status",
            method := "PUT", ifMatch := .vStr "s1::2" } ∧
    EHRClient.update_ehr_status "e1" (.vNum 1) none = .error .typeError :=
  ⟨by rfl,
   (update_ehr_status_spec "e1" (.vDict [("x", .vNone)])).2.1
     [("x", .vNone)] rfl (by rfl),
   (update_ehr_status_spec "e1"
       (.vDict [("uid", .vDict [("value", .vStr "s1::2")])])).2.2.1
     (.vDict [("value", .vStr "s1::2")]) "s1::2" (by rfl) (by rfl) (by decide),
   (update_ehr_status_spec "e1" (.vNum 1)).2.2.2 1 rfl (by decide)⟩

/-- C8: `delete_ehr` issues a DELETE on the admin endpoint and never
propagates a failure: any raised error becomes `False`, any successful
response becomes `True`. -/
theorem delete_ehr_spec (ehr_id : String) (e : PyErr) (v : PyVal) :
    (EHRClient.delete_ehr_request ehr_id).method = "DELETE" ∧
    (EHRClient.delete_ehr_request ehr_id).path = "admin/ehr/" ++ ehr_id ∧
    EHRClient.delete_ehr_result (.error e) = false ∧
    EHRClient.delete_ehr_result (.ok v) = true :=
  ⟨rfl, rfl, rfl, rfl⟩

/-- C9: `request` dispatches only on GET, POST, PUT and DELETE: one of
those four methods selects exactly one branch, while any other method
string leaves `response` unassigned, so the call fails with
`UnboundLocalError` — an error carrying no HTTP status code — without
any request having been sent. -/
theorem request_dispatch_spec (m : String) (o : Except PyErr HttpResponse) :
    ((m = "GET" ∨ m = "POST" ∨ m = "PUT" ∨ m = "DELETE") →
      ∃ b, dispatchMethod m = some b) ∧
    (¬(m = "GET" ∨ m = "POST" ∨ m = "PUT" ∨ m = "DELETE") →
      dispatchMethod m = none ∧
      request m o = .error .unboundLocal ∧
      errStatusCode .unboundLocal = none) := by
  constructor
  · rintro (rfl | rfl | rfl | rfl)
    · exact ⟨.get, rfl⟩
    · exact ⟨.post, rfl⟩
    · exact ⟨.put, rfl⟩
    · exact ⟨.delete, rfl⟩
  · intro h
    push_neg at h
    obtain ⟨h1, h2, h3, h4⟩ := h
    have hd : dispatchMethod m = none := by
      simp [dispatchMethod, h1, h2, h3, h4]
    exact ⟨hd, by simp [request, hd], rfl⟩

/-- C9, witness for `request_dispatch_spec`: `"GET"` selects a branch;
`"PATCH"` fails with the status-less unbound-local error. -/
theorem request_dispatch_spec_witness :
    ¬(("PATCH" : String) = "GET" ∨ ("PATCH" : String) = "POST" ∨
      ("PATCH" : String) = "PUT" ∨ ("PATCH" : String) = "DELETE") ∧
    (∃ b, dispatchMethod "GET" = some b) ∧
    request "PATCH" (.ok ⟨200, "", [], none⟩) = .error .unboundLocal ∧
    errStatusCode .unboundLocal = none :=
  ⟨by decide,
   (request_dispatch_spec "GET" (.ok ⟨200, "", [], none⟩)).1 (Or.inl rfl),
   ((request_dispatch_spec "PATCH" (.ok ⟨200, "", [], none⟩)).2 (by decide)).2.1,
   ((request_dispatch_spec "PATCH" (.ok ⟨200, "", [], none⟩)).2 (by decide)).2.2⟩

end OpenEHR
